import Mathlib

/-!
Formal model of `scripts/tunnel_poc.py`: the tunnel/endpoint lifecycle and the
per-connection bidirectional relay loop, as implemented in the source.

The relay loop of `ThreadedTCPRequestHandler.handle` is embedded as a function
over "receive scripts": the sequence of results that successive `recv` calls on
each of the two peers (the client socket `self.request` and the SSH `chan`)
would return.  A `select` readiness set is derived from the scripts: a peer is
ready exactly when its script still has a pending event (this realises the
timing in which all scripted traffic is already buffered when `select` is
polled, which is one realisable scheduling of the real system).  `send` calls
are modelled as always succeeding; `recv` may return bytes (an empty chunk is
the zero-length read, i.e. orderly EOF) or raise an OS error.
-/

/-- One result of a `recv(1024)` call on a peer: a chunk of bytes (the empty
chunk models the zero-length read of a closed peer) or a raised socket error
(connection reset, broken pipe). -/
inductive RecvEv where
  | chunk (data : List Nat)
  | fail
deriving DecidableEq

/-- How the `while True` relay loop of `handle` ends. -/
inductive RelayOutcome where
  | closed
  | errored
  | blocked
deriving DecidableEq

/-- The observable result of running the relay loop: how it ended, the chunks
delivered to each peer by `send`, whether the handler itself closed each peer
(`chan.close()` / `self.request.close()` after the loop breaks), and whether
the final `log.info` about the closed tunnel was written. -/
structure RelayResult where
  outcome : RelayOutcome
  toChan : List (List Nat)
  toReq : List (List Nat)
  chanClosedByHandler : Bool
  reqClosedByHandler : Bool
  closeLogged : Bool
deriving DecidableEq

/--
The `while True:` loop of `ThreadedTCPRequestHandler.handle`, line by line:
`select.select([self.request, chan], [], [])` returns the ready peers (here:
those whose script is non-empty; if neither has pending events the call blocks
forever, modelled by `.blocked`).  If the request is ready it is read first:
a zero-length read breaks out of the loop, otherwise the data is sent to the
channel.  Then, with the readiness set computed at `select` time, the channel
is read and forwarded to the request in the same way.  A raised `recv` has no
surrounding `try`, so the exception aborts the loop (`.errored`): in that case
the lines `chan.close()`, `self.request.close()` and the closing `log.info`
after the loop are never reached.
-/
def relayGo : List RecvEv → List RecvEv → List (List Nat) → List (List Nat) → RelayResult
  | [], [], tc, tr =>
      { outcome := .blocked, toChan := tc, toReq := tr,
        chanClosedByHandler := false, reqClosedByHandler := false, closeLogged := false }
  | .fail :: _, _, tc, tr =>
      { outcome := .errored, toChan := tc, toReq := tr,
        chanClosedByHandler := false, reqClosedByHandler := false, closeLogged := false }
  | .chunk [] :: _, _, tc, tr =>
      { outcome := .closed, toChan := tc, toReq := tr,
        chanClosedByHandler := true, reqClosedByHandler := true, closeLogged := true }
  | .chunk (b :: bs) :: rT, [], tc, tr =>
      relayGo rT [] (tc ++ [b :: bs]) tr
  | .chunk (b :: bs) :: _, .fail :: _, tc, tr =>
      { outcome := .errored, toChan := tc ++ [b :: bs], toReq := tr,
        chanClosedByHandler := false, reqClosedByHandler := false, closeLogged := false }
  | .chunk (b :: bs) :: _, .chunk [] :: _, tc, tr =>
      { outcome := .closed, toChan := tc ++ [b :: bs], toReq := tr,
        chanClosedByHandler := true, reqClosedByHandler := true, closeLogged := true }
  | .chunk (b :: bs) :: rT, .chunk (c :: cs) :: cT, tc, tr =>
      relayGo rT cT (tc ++ [b :: bs]) (tr ++ [c :: cs])
  | [], .fail :: _, tc, tr =>
      { outcome := .errored, toChan := tc, toReq := tr,
        chanClosedByHandler := false, reqClosedByHandler := false, closeLogged := false }
  | [], .chunk [] :: _, tc, tr =>
      { outcome := .closed, toChan := tc, toReq := tr,
        chanClosedByHandler := true, reqClosedByHandler := true, closeLogged := true }
  | [], .chunk (c :: cs) :: cT, tc, tr =>
      relayGo [] cT tc (tr ++ [c :: cs])
termination_by rs cs _ _ => rs.length + cs.length

/-- Run the relay loop of `handle` on the two receive scripts, starting with
nothing yet forwarded. -/
def relayRun (rs cs : List RecvEv) : RelayResult := relayGo rs cs [] []

/-- The bytes a peer makes available to the relay before it closes or errors:
the concatenation of its data chunks up to the first zero-length read or
raised error. -/
def sentBytes : List RecvEv → List Nat
  | [] => []
  | .chunk [] :: _ => []
  | .chunk (b :: bs) :: rest => (b :: bs) ++ sentBytes rest
  | .fail :: _ => []

/-- Concatenation of the forwarded chunks, in delivery order. -/
def joinChunks : List (List Nat) → List Nat
  | [] => []
  | c :: rest => c ++ joinChunks rest

theorem joinChunks_cons (c : List Nat) (d : List (List Nat)) :
    joinChunks (c :: d) = c ++ joinChunks d := rfl

theorem relayGo_flags (rs cs : List RecvEv) (tc tr : List (List Nat)) :
    (relayGo rs cs tc tr).chanClosedByHandler
        = ((relayGo rs cs tc tr).outcome == RelayOutcome.closed)
    ∧ (relayGo rs cs tc tr).reqClosedByHandler
        = ((relayGo rs cs tc tr).outcome == RelayOutcome.closed)
    ∧ (relayGo rs cs tc tr).closeLogged
        = ((relayGo rs cs tc tr).outcome == RelayOutcome.closed) := by
  induction rs, cs, tc, tr using relayGo.induct <;> simp [relayGo] <;> assumption

theorem relayGo_eof_closes (rs cs : List RecvEv) (tc tr : List (List Nat))
    (hr : RecvEv.fail ∉ rs) (hc : RecvEv.fail ∉ cs)
    (he : RecvEv.chunk [] ∈ rs ∨ RecvEv.chunk [] ∈ cs) :
    (relayGo rs cs tc tr).outcome = RelayOutcome.closed := by
  induction rs, cs, tc, tr using relayGo.induct <;> simp_all [relayGo]

theorem relayGo_prefix (rs cs : List RecvEv) (tc tr : List (List Nat)) :
    (∃ d rest, (relayGo rs cs tc tr).toChan = tc ++ d ∧ joinChunks d ++ rest = sentBytes rs)
    ∧ (∃ d rest, (relayGo rs cs tc tr).toReq = tr ++ d ∧ joinChunks d ++ rest = sentBytes cs) := by
  induction rs, cs, tc, tr using relayGo.induct
  case case1 tc tr =>
    exact ⟨⟨[], [], by simp [relayGo, joinChunks], by simp [joinChunks, sentBytes]⟩,
           ⟨[], [], by simp [relayGo, joinChunks], by simp [joinChunks, sentBytes]⟩⟩
  case case2 rT cs tc tr =>
    exact ⟨⟨[], [], by simp [relayGo, joinChunks], by simp [joinChunks, sentBytes]⟩,
           ⟨[], sentBytes cs, by simp [relayGo, joinChunks], by simp [joinChunks]⟩⟩
  case case3 rT cs tc tr =>
    exact ⟨⟨[], [], by simp [relayGo, joinChunks], by simp [joinChunks, sentBytes]⟩,
           ⟨[], sentBytes cs, by simp [relayGo, joinChunks], by simp [joinChunks]⟩⟩
  case case4 b bs rT tc tr ih =>
    obtain ⟨⟨d1, r1, h1, h2⟩, ⟨d2, r2, h3, h4⟩⟩ := ih
    refine ⟨⟨(b :: bs) :: d1, r1, ?_, ?_⟩, ⟨d2, r2, ?_, ?_⟩⟩
    · simpa [relayGo, List.append_assoc] using h1
    · simp [joinChunks_cons, sentBytes, List.append_assoc, h2]
    · simpa [relayGo] using h3
    · simpa [sentBytes] using h4
  case case5 b bs rT cT tc tr =>
    refine ⟨⟨[b :: bs], sentBytes rT, ?_, ?_⟩, ⟨[], [], ?_, ?_⟩⟩
    · simp [relayGo]
    · simp [joinChunks, sentBytes]
    · simp [relayGo]
    · simp [joinChunks, sentBytes]
  case case6 b bs rT cT tc tr =>
    refine ⟨⟨[b :: bs], sentBytes rT, ?_, ?_⟩, ⟨[], [], ?_, ?_⟩⟩
    · simp [relayGo]
    · simp [joinChunks, sentBytes]
    · simp [relayGo]
    · simp [joinChunks, sentBytes]
  case case7 b bs rT c cs cT tc tr ih =>
    obtain ⟨⟨d1, r1, h1, h2⟩, ⟨d2, r2, h3, h4⟩⟩ := ih
    refine ⟨⟨(b :: bs) :: d1, r1, ?_, ?_⟩, ⟨(c :: cs) :: d2, r2, ?_, ?_⟩⟩
    · simpa [relayGo, List.append_assoc] using h1
    · simp [joinChunks_cons, sentBytes, List.append_assoc, h2]
    · simpa [relayGo, List.append_assoc] using h3
    · simp [joinChunks_cons, sentBytes, List.append_assoc, h4]
  case case8 cT tc tr =>
    exact ⟨⟨[], [], by simp [relayGo, joinChunks], by simp [joinChunks, sentBytes]⟩,
           ⟨[], [], by simp [relayGo, joinChunks], by simp [joinChunks, sentBytes]⟩⟩
  case case9 cT tc tr =>
    exact ⟨⟨[], [], by simp [relayGo, joinChunks], by simp [joinChunks, sentBytes]⟩,
           ⟨[], [], by simp [relayGo, joinChunks], by simp [joinChunks, sentBytes]⟩⟩
  case case10 c cs cT tc tr ih =>
    obtain ⟨⟨d1, r1, h1, h2⟩, ⟨d2, r2, h3, h4⟩⟩ := ih
    refine ⟨⟨d1, r1, ?_, ?_⟩, ⟨(c :: cs) :: d2, r2, ?_, ?_⟩⟩
    · simpa [relayGo] using h1
    · simpa [sentBytes] using h2
    · simpa [relayGo, List.append_assoc] using h3
    · simp [joinChunks_cons, sentBytes, List.append_assoc, h4]

/-- Number of `%s` conversion specifiers in one of the module's log format
strings (the handler's messages use only `%s`). -/
def countSpecsAux : List Char → Nat
  | [] => 0
  | '%' :: 's' :: rest => countSpecsAux rest + 1
  | _ :: rest => countSpecsAux rest

/-- Number of `%s` specifiers in a format string. -/
def countFormatSpecs (s : String) : Nat := countSpecsAux s.data

/-- The format string of the `log.critical` call in the handler's `except`
branch, copied verbatim from `handle`. -/
def requestFailedFmt : String := "Incoming request to %s:%s failed: %s"

/-- The format string of the `log.critical` call in the handler's
`chan is None` branch, copied verbatim from `handle`. -/
def requestRejectedFmt : String := "Incoming request to %s:%s was rejected by the SSH server."

/-- The `except` branch applies `%` to the pair
`(self.remote_address, repr(e))`: two supplied values. -/
def requestFailedArgs : Nat := 2

/-- The `chan is None` branch applies `%` to `(self.remote_address)`, which is
just the remote `(ip, port)` pair itself, unpacked into two values. -/
def requestRejectedArgs : Nat := 2

/-- What `self.ssh_transport.open_channel(...)` does for one accepted client:
returns a channel, raises, or returns `None`. -/
inductive ChanOpenResult where
  | opened
  | raises
  | rejected
deriving DecidableEq

/-- How the complete handling of one accepted connection ends. -/
inductive ConnOutcome where
  | relayClosed
  | relayErrored
  | relayBlocked
  | openFailedLogged
  | openFailedUnlogged
  | openRejectedLogged
  | openRejectedUnlogged
deriving DecidableEq

/-- The observable result of one accepted connection, including what the
surrounding `socketserver` machinery does after `handle` returns or raises. -/
structure ConnResult where
  outcome : ConnOutcome
  toChan : List (List Nat)
  toReq : List (List Nat)
  chanClosed : Bool
  clientClosed : Bool
  closeLogged : Bool
  failureLogged : Bool
  frameworkReported : Bool
  acceptLoopContinues : Bool
deriving DecidableEq

/--
One accepted client connection end to end: `ThreadedTCPRequestHandler.handle`
plus the surrounding `socketserver.ThreadingMixIn.process_request_thread`,
which calls `handle` inside a `try` whose `except` invokes `handle_error`
(a stderr traceback, not a record of this module's logger) and whose
`finally` calls `shutdown_request`, closing the client socket; the serving
thread then exits and `serve_forever` keeps accepting either way.

In the `except Exception` branch of `handle`, the `%` formatting of
`requestFailedFmt` is evaluated before `log.critical` can run, and it raises
`TypeError` whenever the number of `%s` specifiers differs from the number of
supplied values; only if it matched would the critical record be written and
the handler return.  The `chan is None` branch formats `requestRejectedFmt`
the same way.  If a channel was opened, the relay loop runs as in `relayGo`;
an escaped relay exception reaches the framework, which closes only the
client socket — the channel is left as the handler left it.
-/
def handleConnection (r : ChanOpenResult) (rs cs : List RecvEv) : ConnResult :=
  match r with
  | .raises =>
      if countFormatSpecs requestFailedFmt = requestFailedArgs then
        { outcome := .openFailedLogged, toChan := [], toReq := [],
          chanClosed := false, clientClosed := true, closeLogged := false,
          failureLogged := true, frameworkReported := false, acceptLoopContinues := true }
      else
        { outcome := .openFailedUnlogged, toChan := [], toReq := [],
          chanClosed := false, clientClosed := true, closeLogged := false,
          failureLogged := false, frameworkReported := true, acceptLoopContinues := true }
  | .rejected =>
      if countFormatSpecs requestRejectedFmt = requestRejectedArgs then
        { outcome := .openRejectedLogged, toChan := [], toReq := [],
          chanClosed := false, clientClosed := true, closeLogged := false,
          failureLogged := true, frameworkReported := false, acceptLoopContinues := true }
      else
        { outcome := .openRejectedUnlogged, toChan := [], toReq := [],
          chanClosed := false, clientClosed := true, closeLogged := false,
          failureLogged := false, frameworkReported := true, acceptLoopContinues := true }
  | .opened =>
      let res := relayRun rs cs
      { outcome := match res.outcome with
          | .closed => .relayClosed
          | .errored => .relayErrored
          | .blocked => .relayBlocked,
        toChan := res.toChan, toReq := res.toReq,
        chanClosed := res.chanClosedByHandler,
        clientClosed := true,
        closeLogged := res.closeLogged,
        failureLogged := false,
        frameworkReported := res.outcome == RelayOutcome.errored,
        acceptLoopContinues := true }

/-- Lookup in a Python dict modelled as an insertion-ordered association
list. -/
def pyDictGet {α : Type} : List (String × α) → String → Option α
  | [], _ => none
  | (k, v) :: rest, key => if k = key then some v else pyDictGet rest key

/-- `d[key] = v` on a Python dict modelled as an insertion-ordered
association list: overwrite in place if the key exists, append otherwise. -/
def pyDictInsert {α : Type} (key : String) (v : α) : List (String × α) → List (String × α)
  | [] => [(key, v)]
  | (k, w) :: rest => if k = key then (key, v) :: rest else (k, w) :: pyDictInsert key v rest

theorem pyDictGet_insert_self {α : Type} (key : String) (v : α) (l : List (String × α)) :
    pyDictGet (pyDictInsert key v l) key = some v := by
  induction l with
  | nil => simp [pyDictGet, pyDictInsert]
  | cons p rest ih =>
      by_cases h : p.1 = key
      · simp [pyDictInsert, pyDictGet, h]
      · simp [pyDictInsert, pyDictGet, h, ih]

theorem pyDictGet_map {α β : Type} (f : α → β) (l : List (String × α)) (key : String) :
    pyDictGet (l.map fun p => (p.1, f p.2)) key = (pyDictGet l key).map f := by
  induction l with
  | nil => simp [pyDictGet]
  | cons p rest ih =>
      by_cases h : p.1 = key
      · simp [pyDictGet, h]
      · simp [pyDictGet, h, ih]

/-- The `EndPoint` object: the two addresses and the transport handle are set
in `__init__`; `thread` and `server` stay `None` until `enable` runs
`_enable`, which constructs the `ThreadedTCPServer` bound to `local_address`
(recorded here as `serverBound`, the listener's resulting socket name) and
starts the daemon `serve_forever` thread whose name becomes the identifier.
`disable` calls `server.shutdown()` when a server exists, which stops the
`serve_forever` loop. -/
structure EndPointM where
  local_address : String × Nat
  remote_address : String × Nat
  threadName : Option String
  serverBound : Option (String × Nat)
  serverRunning : Bool
deriving DecidableEq

/-- `EndPoint.__init__(local_address, remote_address, transport)`. -/
def EndPointM.mk0 (la ra : String × Nat) : EndPointM :=
  { local_address := la, remote_address := ra,
    threadName := none, serverBound := none, serverRunning := false }

/-- `EndPoint.enable` / `_enable`: bind the `ThreadedTCPServer` to
`local_address` and start the server thread, whose name `tname` is what
`getId` will return. -/
def EndPointM.enable (ep : EndPointM) (tname : String) : EndPointM :=
  { ep with threadName := some tname, serverBound := some ep.local_address,
            serverRunning := true }

/-- `EndPoint.disable`: `server.shutdown()` if a server exists (the listener
socket itself is not closed by `shutdown`), otherwise only a log message. -/
def EndPointM.disable (ep : EndPointM) : EndPointM :=
  if ep.serverBound.isSome then { ep with serverRunning := false } else ep

/-- `EndPoint.get`: `(local_address, remote_address)`. -/
def EndPointM.get (ep : EndPointM) : (String × Nat) × (String × Nat) :=
  (ep.local_address, ep.remote_address)

/-- The `Tunnel` object's state: the target server, the paramiko transport's
liveness and authentication state, the `connected` flag maintained by
`is_connected`, and the `end_points` dict. -/
structure TunnelM where
  server : String × Nat
  transportActive : Bool
  transportAuthenticated : Bool
  transportClosed : Bool
  connected : Bool
  end_points : List (String × EndPointM)
deriving DecidableEq

/-- `Tunnel.is_connected`: returns `False` and clears `connected` when the
transport is not active; otherwise clears or sets `connected` according to
`is_authenticated()` and returns it. -/
def is_connected (t : TunnelM) : Bool × TunnelM :=
  if t.transportActive = false then (false, { t with connected := false })
  else if t.transportAuthenticated = false then (false, { t with connected := false })
  else (true, { t with connected := true })

/-- `Tunnel._find_unused_local_port`: binds a throwaway socket to
`('127.0.0.1', 0)` and returns its `getsockname()`; the ephemeral port the OS
picked is the `fresh` argument of the operations below. -/
def find_unused_local_port (fresh : Nat) : String × Nat := ("127.0.0.1", fresh)

/-- `Tunnel.add_endpoint(remote_ip, remote_port)`: build the remote address,
allocate a local address, construct and enable an `EndPoint`, store it in
`end_points` under `getId()` (the server thread's name `tname`) and return
that identifier. -/
def add_endpoint (t : TunnelM) (remote_ip : String) (remote_port : Nat)
    (fresh : Nat) (tname : String) : String × TunnelM :=
  let remote_address := (remote_ip, remote_port)
  let local_address := find_unused_local_port fresh
  let new_endpoint := (EndPointM.mk0 local_address remote_address).enable tname
  (tname, { t with end_points := pyDictInsert tname new_endpoint t.end_points })

/-- `Tunnel.remove_endpoint(name)`: if `name in self.end_points`, call
`disable()` on the stored object (mutating it in place); there is no `del`,
so the key stays in the dict. -/
def remove_endpoint (t : TunnelM) (name : String) : TunnelM :=
  match pyDictGet t.end_points name with
  | none => t
  | some ep => { t with end_points := pyDictInsert name ep.disable t.end_points }

/-- `Tunnel.disconnect`: `remove_endpoint(name)` for every key of
`end_points` (the dict is not mutated structurally, so the iteration is
safe), then `transport.close()`. -/
def disconnect (t : TunnelM) : TunnelM :=
  let t1 := (t.end_points.map Prod.fst).foldl remove_endpoint t
  { t1 with transportActive := false, transportClosed := true }

/-- `Tunnel.list_endpoints`: a fresh dict mapping each name to
`end_point.get()`. -/
def list_endpoints (t : TunnelM) : List (String × ((String × Nat) × (String × Nat))) :=
  t.end_points.map fun p => (p.1, p.2.get)

/-- Key material passed to `Tunnel.__init__`: either a file-like object (it
has a `readlines` attribute) or a plain string of key data. -/
inductive KeyData where
  | fileLike (content : String)
  | plainStr (content : String)
deriving DecidableEq

/-- `hasattr(data, 'readlines')`. -/
def hasAttrReadlines : KeyData → Bool
  | .fileLike _ => true
  | .plainStr _ => false

/-- The exceptions the constructor path can raise. -/
inductive PyError where
  | attributeError (msg : String)
  | socketError
  | sshException
deriving DecidableEq

/-- An `paramiko.RSAKey` successfully built from key material. -/
structure RSAKeyM where
  keyData : String
deriving DecidableEq

/-- The attributes of the class `io.StringIO`, which is what the bare name
`StringIO` refers to in this module after `from io import StringIO`.  It is a
class of in-memory text streams; it has no member named `StringIO` (that name
only exists on the Python 2 `StringIO` *module*). -/
def stringIOClassAttrs : List String :=
  ["read", "readline", "readlines", "write", "writelines", "seek", "tell",
   "flush", "truncate", "close", "getvalue"]

/-- `Tunnel._make_key_file(data)`: use `data` directly when it is file-like;
otherwise evaluate `StringIO.StringIO()`, i.e. look up the attribute
`StringIO` on the class `io.StringIO`, which raises `AttributeError`, so the
buffer is never constructed and the plain-string branch cannot complete. -/
def _make_key_file (data : KeyData) : Except PyError RSAKeyM :=
  if hasAttrReadlines data then
    match data with
    | .fileLike c => .ok { keyData := c }
    | .plainStr c => .ok { keyData := c }
  else if stringIOClassAttrs.contains ("StringIO") then
    match data with
    | .fileLike c => .ok { keyData := c }
    | .plainStr c => .ok { keyData := c }
  else
    .error (PyError.attributeError ("type object StringIO has no attribute StringIO"))

/-- The key-handling steps of `Tunnel.__init__` for one optional key argument:
`if key: auth_data[...] = self._make_key_file(key)`. -/
def checkKey : Option KeyData → Except PyError Unit
  | none => Except.ok ()
  | some k => (_make_key_file k).map fun _ => ()

/-- What the external paramiko transport does in this run: whether
`paramiko.Transport((hostname, port))` raises (target unreachable), whether
`transport.connect(**auth_data)` raises, and what `is_active()` /
`is_authenticated()` report afterwards. -/
structure TransportBeh where
  ctorRaises : Bool
  connectRaises : Bool
  active : Bool
  authenticated : Bool
deriving DecidableEq

/-- The `Tunnel` state right after a constructor run in which no exception
was raised: empty `end_points`, and `connected` as `is_connected` left it
(`_connect` calls `is_connected` and discards the returned value). -/
def initialTunnel (hostname : String) (port : Nat) (beh : TransportBeh) : TunnelM :=
  (is_connected
    { server := (hostname, port), transportActive := beh.active,
      transportAuthenticated := beh.authenticated, transportClosed := false,
      connected := false, end_points := [] }).2

/-- `Tunnel.__init__`: process `client_key` then `server_key` through
`_make_key_file`, construct the paramiko transport (its constructor connects
the underlying socket and raises if the target is unreachable), then
`_connect`, which runs `transport.connect(**auth_data)` (propagating any
exception) followed by `self.is_connected()` whose boolean result is
discarded.  Uncaught exceptions are what the caller of the constructor
sees; otherwise the caller receives the `Tunnel` object. -/
def tunnelInit (hostname : String) (port : Nat)
    (client_key server_key : Option KeyData) (beh : TransportBeh) :
    Except PyError TunnelM :=
  checkKey client_key >>= fun _ =>
  checkKey server_key >>= fun _ =>
  if beh.ctorRaises then .error PyError.socketError
  else if beh.connectRaises then .error PyError.sshException
  else .ok (initialTunnel hostname port beh)

/-- A `Tunnel` as left by a successful connect followed by one
`add_endpoint("10.0.0.5", 80)` that bound local port 5000 and registered the
endpoint under the server thread name `Thread-1`. -/
def tSample : TunnelM :=
  { server := ("gns3host", 22), transportActive := true,
    transportAuthenticated := true, transportClosed := false,
    connected := true,
    end_points :=
      [("Thread-1",
        (EndPointM.mk0 ("127.0.0.1", 5000) ("10.0.0.5", 80)).enable ("Thread-1"))] }

/-- Claim C1, evaluated at the failing input: `remove_endpoint` does stop the
endpoint (`serverRunning` becomes false) but never deletes the key, so the
identifier is still registered afterwards, and `list_endpoints()` after
`disconnect()` still returns the full mapping instead of an empty one. -/
theorem removeEndpoint_leaves_identifier_registered :
    (pyDictGet (remove_endpoint tSample ("Thread-1")).end_points ("Thread-1")).map
        EndPointM.serverRunning = some false
    ∧ (remove_endpoint tSample ("Thread-1")).end_points.map Prod.fst = ["Thread-1"]
    ∧ list_endpoints (disconnect tSample)
        = [("Thread-1", (("127.0.0.1", 5000), ("10.0.0.5", 80)))] := by
  exact ⟨rfl, rfl, rfl⟩

/-- Claim C3 (amended): `add_endpoint` performs no connectivity check, so even
after `disconnect()` has closed the transport it still registers a new enabled
endpoint under the fresh identifier and returns that identifier. -/
theorem addEndpoint_after_disconnect_succeeds (t : TunnelM) (rip : String)
    (rp fresh : Nat) (tname : String) :
    (add_endpoint (disconnect t) rip rp fresh tname).1 = tname
    ∧ pyDictGet (add_endpoint (disconnect t) rip rp fresh tname).2.end_points tname
        = some ((EndPointM.mk0 ("127.0.0.1", fresh) (rip, rp)).enable tname)
    ∧ (add_endpoint (disconnect t) rip rp fresh tname).2.transportActive = false := by
  refine ⟨rfl, ?_, ?_⟩
  · simp [add_endpoint, find_unused_local_port, pyDictGet_insert_self]
  · simp [add_endpoint, disconnect]

/-- Claim C3, counterexample to the claim as stated: on a concrete
disconnected tunnel, `add_endpoint` does not fail with any error — it returns
a new identifier and registers an endpoint under it. -/
theorem addEndpoint_after_disconnect_concrete :
    (add_endpoint (disconnect tSample) ("10.0.0.9") 443 6000 ("Thread-2")).1 = "Thread-2"
    ∧ (pyDictGet (add_endpoint (disconnect tSample) ("10.0.0.9") 443 6000
        ("Thread-2")).2.end_points ("Thread-2")).isSome = true
    ∧ (disconnect tSample).transportActive = false := by
  exact ⟨rfl, rfl, rfl⟩

/-- Claim C9: removing an identifier that is not a key of `end_points` leaves
the tunnel state — registry and every registered endpoint — unchanged. -/
theorem removeEndpoint_absent_is_noop (t : TunnelM) (name : String)
    (h : pyDictGet t.end_points name = none) :
    remove_endpoint t name = t := by
  simp [remove_endpoint, h]

/-- Claim C9, witness: removing the absent identifier `Thread-9` from the
sample tunnel returns it unchanged. -/
theorem removeEndpoint_absent_is_noop_witness :
    remove_endpoint tSample ("Thread-9") = tSample :=
  removeEndpoint_absent_is_noop tSample ("Thread-9") (by rfl)

/-- Claim C8: `add_endpoint` returns the identifier under which the endpoint
is registered; the endpoint's listener is bound to the allocated local
address, and `list_endpoints()` maps that identifier to exactly (bound local
address, requested remote address). -/
theorem addEndpoint_registers_and_lists (t : TunnelM) (rip : String)
    (rp fresh : Nat) (tname : String) :
    (add_endpoint t rip rp fresh tname).1 = tname
    ∧ pyDictGet (add_endpoint t rip rp fresh tname).2.end_points tname
        = some ((EndPointM.mk0 ("127.0.0.1", fresh) (rip, rp)).enable tname)
    ∧ ((EndPointM.mk0 ("127.0.0.1", fresh) (rip, rp)).enable tname).serverBound
        = some ("127.0.0.1", fresh)
    ∧ pyDictGet (list_endpoints (add_endpoint t rip rp fresh tname).2) tname
        = some (("127.0.0.1", fresh), (rip, rp)) := by
  refine ⟨rfl, ?_, rfl, ?_⟩
  · simp [add_endpoint, find_unused_local_port, pyDictGet_insert_self]
  · simp only [list_endpoints]
    rw [pyDictGet_map]
    simp [add_endpoint, find_unused_local_port, pyDictGet_insert_self, EndPointM.get,
      EndPointM.mk0, EndPointM.enable]

/-- After a raise-free constructor run, the `connected` flag holds exactly
`is_active() and is_authenticated()`, as `is_connected` leaves it. -/
theorem initialTunnel_connected (hostname : String) (port : Nat) (beh : TransportBeh) :
    (initialTunnel hostname port beh).connected = (beh.active && beh.authenticated) := by
  cases ha : beh.active <;> cases hau : beh.authenticated <;>
    simp [initialTunnel, is_connected, ha, hau]

/-- A transport whose connection succeeds but which ends up unauthenticated
(`is_active()` true, `is_authenticated()` false after `transport.connect`). -/
def behAuthFail : TransportBeh :=
  { ctorRaises := false, connectRaises := false, active := true, authenticated := false }

/-- Claim C2, counterexample to the claim as stated: when authentication fails
post-connect (as determined by the `is_active`/`is_authenticated` checks), the
constructor does not fail — the caller receives a `Tunnel` with
`connected = False` and endpoints can still be added to it. -/
theorem connect_auth_failure_still_returns_tunnel :
    tunnelInit ("gns3host") 22 none none behAuthFail
      = .ok (initialTunnel ("gns3host") 22 behAuthFail)
    ∧ (initialTunnel ("gns3host") 22 behAuthFail).connected = false
    ∧ (add_endpoint (initialTunnel ("gns3host") 22 behAuthFail) ("10.0.0.5") 80 5000
        ("Thread-1")).1 = "Thread-1"
    ∧ (pyDictGet (add_endpoint (initialTunnel ("gns3host") 22 behAuthFail) ("10.0.0.5") 80 5000
        ("Thread-1")).2.end_points ("Thread-1")).isSome = true := by
  exact ⟨rfl, rfl, rfl, rfl⟩

/-- Claim C2 (amended): only transport-level exceptions (unreachable target in
the `paramiko.Transport` constructor, or a raising `transport.connect`) make
the constructor fail; whenever it returns a tunnel, no such exception
occurred, the post-connect check merely recorded
`is_active() and is_authenticated()` in the `connected` flag, and
`add_endpoint` succeeds on the returned tunnel regardless of that flag. -/
theorem connect_failure_behavior (hostname : String) (port : Nat) (beh : TransportBeh)
    (t : TunnelM) (hOk : tunnelInit hostname port none none beh = .ok t) :
    beh.ctorRaises = false ∧ beh.connectRaises = false
    ∧ t.connected = (beh.active && beh.authenticated)
    ∧ (add_endpoint t ("10.0.0.5") 80 5000 ("Thread-1")).1 = "Thread-1"
    ∧ pyDictGet (add_endpoint t ("10.0.0.5") 80 5000 ("Thread-1")).2.end_points ("Thread-1")
        = some ((EndPointM.mk0 ("127.0.0.1", 5000) ("10.0.0.5", 80)).enable ("Thread-1")) := by
  cases hcr : beh.ctorRaises with
  | true => simp [tunnelInit, checkKey, hcr, bind, Except.bind] at hOk
  | false =>
    cases hco : beh.connectRaises with
    | true => simp [tunnelInit, checkKey, hcr, hco, bind, Except.bind] at hOk
    | false =>
      simp [tunnelInit, checkKey, hcr, hco, bind, Except.bind] at hOk
      subst hOk
      refine ⟨rfl, rfl, initialTunnel_connected hostname port beh, rfl, ?_⟩
      simp [add_endpoint, find_unused_local_port, pyDictGet_insert_self]

/-- Claim C2, witness: the amended theorem instantiated at the
unauthenticated-but-active transport behaviour. -/
theorem connect_failure_behavior_witness :
    behAuthFail.ctorRaises = false ∧ behAuthFail.connectRaises = false
    ∧ (initialTunnel ("gns3host") 22 behAuthFail).connected
        = (behAuthFail.active && behAuthFail.authenticated)
    ∧ (add_endpoint (initialTunnel ("gns3host") 22 behAuthFail) ("10.0.0.5") 80 5000
        ("Thread-1")).1 = "Thread-1"
    ∧ pyDictGet (add_endpoint (initialTunnel ("gns3host") 22 behAuthFail) ("10.0.0.5") 80 5000
        ("Thread-1")).2.end_points ("Thread-1")
        = some ((EndPointM.mk0 ("127.0.0.1", 5000) ("10.0.0.5", 80)).enable ("Thread-1")) :=
  connect_failure_behavior ("gns3host") 22 behAuthFail
    (initialTunnel ("gns3host") 22 behAuthFail) rfl

/-- Claim C10: constructing a `Tunnel` with string key data — as `client_key`
or as `server_key` — always raises: the plain-string branch of
`_make_key_file` evaluates `StringIO.StringIO()`, an invalid attribute lookup
under `from io import StringIO`, so construction fails for every transport
behaviour; a file-like key object, by contrast, goes through. -/
theorem string_key_construction_always_fails (c hostname : String) (port : Nat)
    (sk : Option KeyData) (beh : TransportBeh) :
    tunnelInit hostname port (some (KeyData.plainStr c)) sk beh
      = .error (PyError.attributeError ("type object StringIO has no attribute StringIO"))
    ∧ tunnelInit hostname port none (some (KeyData.plainStr c)) beh
      = .error (PyError.attributeError ("type object StringIO has no attribute StringIO"))
    ∧ _make_key_file (KeyData.fileLike c) = .ok { keyData := c } := by
  exact ⟨rfl, rfl, rfl⟩

/-- Claim C7: when neither peer's receive script raises and at least one
contains a zero-length read, the relay loop always terminates via the EOF
break (never half-duplex continuation), after which the handler closes both
the channel and the client socket, whichever side closed first. -/
theorem zero_read_terminates_and_closes_both (rs cs : List RecvEv)
    (hr : RecvEv.fail ∉ rs) (hc : RecvEv.fail ∉ cs)
    (he : RecvEv.chunk [] ∈ rs ∨ RecvEv.chunk [] ∈ cs) :
    (relayRun rs cs).outcome = RelayOutcome.closed
    ∧ (relayRun rs cs).chanClosedByHandler = true
    ∧ (relayRun rs cs).reqClosedByHandler = true := by
  have ho := relayGo_eof_closes rs cs [] [] hr hc he
  have hf := relayGo_flags rs cs [] []
  refine ⟨ho, ?_, ?_⟩ <;> simp [relayRun, hf.1, hf.2.1, ho]

/-- Claim C7, witness: a client that sends one chunk and closes, against a
channel that has one chunk pending, ends with the relay closed and both peers
closed by the handler. -/
theorem zero_read_terminates_witness :
    (relayRun [RecvEv.chunk [1], RecvEv.chunk []] [RecvEv.chunk [2]]).outcome
      = RelayOutcome.closed
    ∧ (relayRun [RecvEv.chunk [1], RecvEv.chunk []] [RecvEv.chunk [2]]).chanClosedByHandler = true
    ∧ (relayRun [RecvEv.chunk [1], RecvEv.chunk []] [RecvEv.chunk [2]]).reqClosedByHandler = true :=
  zero_read_terminates_and_closes_both _ _ (by decide) (by decide) (by decide)

/-- Claim C6 (amended): in each direction the relay delivers, byte for byte
and in order, a prefix of what that peer sent, with no reordering within a
direction and no merging across directions; delivery of the full sequences is
not guaranteed, because reading one peer's end-of-stream breaks the loop and
discards whatever the other peer still had pending. -/
theorem relay_delivers_ordered_prefix (rs cs : List RecvEv) :
    (∃ rest, joinChunks (relayRun rs cs).toChan ++ rest = sentBytes rs)
    ∧ (∃ rest, joinChunks (relayRun rs cs).toReq ++ rest = sentBytes cs) := by
  obtain ⟨⟨d1, r1, h1, h2⟩, ⟨d2, r2, h3, h4⟩⟩ := relayGo_prefix rs cs [] []
  constructor
  · refine ⟨r1, ?_⟩
    have hx : (relayRun rs cs).toChan = d1 := by simpa [relayRun] using h1
    rw [hx]; exact h2
  · refine ⟨r2, ?_⟩
    have hx : (relayRun rs cs).toReq = d2 := by simpa [relayRun] using h3
    rw [hx]; exact h4

/-- Claim C6, counterexample to the claim as stated: the channel sends one
byte (M = 1) but the client's EOF is read first in the same `select` round,
so the relay closes and the client side receives nothing instead of exactly
that byte. -/
theorem relay_discards_pending_peer_data :
    sentBytes [RecvEv.chunk [9], RecvEv.chunk []] = [9]
    ∧ (relayRun [RecvEv.chunk []] [RecvEv.chunk [9], RecvEv.chunk []]).toReq = []
    ∧ (relayRun [RecvEv.chunk []] [RecvEv.chunk [9], RecvEv.chunk []]).outcome
        = RelayOutcome.closed
    ∧ joinChunks (relayRun [RecvEv.chunk []] [RecvEv.chunk [9], RecvEv.chunk []]).toReq
        ≠ sentBytes [RecvEv.chunk [9], RecvEv.chunk []] := by
  refine ⟨rfl, ?_, ?_, ?_⟩ <;> simp [relayRun, relayGo, sentBytes, joinChunks]

/-- Claim C4 (amended): an error raised during a relay read aborts the loop
as an uncaught exception: the handler closes neither peer and writes no
closing log; the `socketserver` framework catches the exception (so it never
reaches the Endpoint's accept loop or the Tunnel), reports it through its
`handle_error` hook rather than this module's logger, closes only the client
socket, and keeps accepting. -/
theorem relay_error_skips_channel_close (rs cs : List RecvEv)
    (h : (relayRun rs cs).outcome = RelayOutcome.errored) :
    (handleConnection .opened rs cs).chanClosed = false
    ∧ (handleConnection .opened rs cs).clientClosed = true
    ∧ (handleConnection .opened rs cs).closeLogged = false
    ∧ (handleConnection .opened rs cs).frameworkReported = true
    ∧ (handleConnection .opened rs cs).acceptLoopContinues = true := by
  have hf := relayGo_flags rs cs [] []
  simp only [relayRun] at h
  simp [handleConnection, relayRun, hf.1, hf.2.1, hf.2.2, h]

/-- Claim C4, counterexample to the claim as stated: a reset on the client's
first read errors the relay; the channel is not closed and the closing log is
not written — not the same treatment as a clean close. -/
theorem relay_read_error_counterexample :
    (relayRun [RecvEv.fail] [RecvEv.chunk [7]]).outcome = RelayOutcome.errored
    ∧ (handleConnection .opened [RecvEv.fail] [RecvEv.chunk [7]]).chanClosed = false
    ∧ (handleConnection .opened [RecvEv.fail] [RecvEv.chunk [7]]).closeLogged = false
    ∧ (handleConnection .opened [RecvEv.fail] [RecvEv.chunk [7]]).clientClosed = true := by
  refine ⟨?_, ?_, ?_, ?_⟩ <;> simp [handleConnection, relayRun, relayGo]

/-- Claim C4, witness: the amended theorem applied to a relay whose client
read raises immediately. -/
theorem relay_error_skips_channel_close_witness :
    (handleConnection .opened [RecvEv.fail] []).chanClosed = false
    ∧ (handleConnection .opened [RecvEv.fail] []).clientClosed = true
    ∧ (handleConnection .opened [RecvEv.fail] []).closeLogged = false
    ∧ (handleConnection .opened [RecvEv.fail] []).frameworkReported = true
    ∧ (handleConnection .opened [RecvEv.fail] []).acceptLoopContinues = true :=
  relay_error_skips_channel_close [RecvEv.fail] [] (by simp [relayRun, relayGo])

/-- Claim C5, evaluated at the failing input: the `except` branch's format
string has three `%s` specifiers but only two values are supplied, so the `%`
formatting raises before `log.critical` runs and the failure is never logged
by the module; the framework still closes the client socket and the accept
loop continues.  The `chan is None` branch, whose specifier count matches its
two supplied values, does log and return. -/
theorem open_channel_error_log_never_written :
    countFormatSpecs requestFailedFmt = 3
    ∧ requestFailedArgs = 2
    ∧ (handleConnection .raises [] []).failureLogged = false
    ∧ (handleConnection .raises [] []).outcome = ConnOutcome.openFailedUnlogged
    ∧ (handleConnection .raises [] []).clientClosed = true
    ∧ (handleConnection .raises [] []).acceptLoopContinues = true
    ∧ countFormatSpecs requestRejectedFmt = 2
    ∧ (handleConnection .rejected [] []).failureLogged = true
    ∧ (handleConnection .rejected [] []).acceptLoopContinues = true := by
  exact ⟨rfl, rfl, rfl, rfl, rfl, rfl, rfl, rfl, rfl⟩
